import Mathlib

/-!
Verification development for the CBWebSocketServer repository: a shallow
embedding of its heartbeat manager (`src/heartbeat.js`), broadcast relay
(`src/broadcast.js`), per-connection session handler and listener
orchestration (`server.js`), together with theorems settling the
specification claims about them.
-/

namespace CBWS

/-! ## JSON values

Values produced by a successful `JSON.parse` of a textual payload.
Numbers are modelled as integers (no claim involves fractional numerics).
-/

/-- A structured (JSON) value as produced by `JSON.parse`. -/
inductive JsonVal where
  | null
  | bool (b : Bool)
  | num (n : Int)
  | str (s : String)
  | arr (xs : List JsonVal)
  | obj (fields : List (String × JsonVal))

/-- Escaping for `JSON.stringify` string output; only the two characters
that require escaping among those occurring in this development. -/
def escapeJsonChar (c : Char) : String :=
  if c = '\"' then "\\\"" else if c = '\\' then "\\\\" else String.singleton c

/-- Encoding of a string literal, as `JSON.stringify` renders it. -/
def encodeString (s : String) : String :=
  "\"" ++ String.join (s.data.map escapeJsonChar) ++ "\""

mutual

/-- Canonical re-encoding of a structured value: models `JSON.stringify`
as used by the broadcast relay (`outgoing = JSON.stringify(parsed)`). -/
def encode : JsonVal → String
  | .null => "null"
  | .bool true => "true"
  | .bool false => "false"
  | .num n => toString n
  | .str s => encodeString s
  | .arr xs => "[" ++ encodeArr xs ++ "]"
  | .obj fs => "\x7b" ++ encodeObj fs ++ "\x7d"

/-- Comma-separated encoding of array elements. -/
def encodeArr : List JsonVal → String
  | [] => ""
  | [x] => encode x
  | x :: y :: rest => encode x ++ "," ++ encodeArr (y :: rest)

/-- Comma-separated encoding of object fields. -/
def encodeObj : List (String × JsonVal) → String
  | [] => ""
  | [kv] => encodeString kv.1 ++ ":" ++ encode kv.2
  | kv :: p :: rest => encodeString kv.1 ++ ":" ++ encode kv.2 ++ "," ++ encodeObj (p :: rest)

end

/-- Property lookup on the field list of a parsed object: `JSON.parse`
keeps the value of the last occurrence of a duplicated key. -/
def lookupField (fields : List (String × JsonVal)) (key : String) : Option JsonVal :=
  fields.foldl (fun acc p => if p.1 = key then some p.2 else acc) none

/-- JavaScript property access `parsed.type`: defined (as a JSON value)
only when `parsed` is an object with a `type` field; every other access
yields `undefined`, modelled as `none`. -/
def typeProp : JsonVal → Option JsonVal
  | .obj fields => lookupField fields "type"
  | _ => none

/-- JavaScript truthiness of a parsed JSON value (`null`, `false`, `0`
and the empty string are falsy; objects and arrays are always truthy). -/
def jsTruthy : JsonVal → Bool
  | .null => false
  | .bool b => b
  | .num n => n != 0
  | .str s => s != ""
  | .arr _ => true
  | .obj _ => true

/-- The strict comparison `parsed.type === 'ping'` on the looked-up
property value. -/
def isPingString : Option JsonVal → Bool
  | some (.str s) => s == "ping"
  | _ => false

/-- The session handler's interception test `parsed && parsed.type === 'ping'`
(`server.js`, message handler inside `attachHandlers`). The argument is
the outcome of `JSON.parse` on the payload (`none` when parsing threw). -/
def isAppPing : Option JsonVal → Bool
  | some v => jsTruthy v && isPingString (typeProp v)
  | none => false

/-! ## Session handler (`attachHandlers` message callback, `server.js`) -/

/-- Observable effects of one run of the per-connection message handler:
whether `hbMgr.markAlive` was invoked, the replies sent directly to the
sender, and the payload handed to the broadcast relay (if any). -/
structure MessageEffects where
  markAliveCalled : Bool
  repliesToSender : List String
  relayedPayload : Option String
deriving DecidableEq, Repr

/-- The message handler of `attachHandlers`: an application-layer ping is
answered with one `pong` and marked alive (and not relayed); every other
payload is handed unchanged to the broadcast relay. `raw` is the payload
text, `parsed` the outcome of `JSON.parse raw`. -/
def onMessage (raw : String) (parsed : Option JsonVal) : MessageEffects :=
  if isAppPing parsed then
    { markAliveCalled := true
      repliesToSender := [encode (.obj [("type", .str "pong")])]
      relayedPayload := none }
  else
    { markAliveCalled := false
      repliesToSender := []
      relayedPayload := some raw }

/-! ## Broadcast relay (`src/broadcast.js`) -/

/-- One entry of the `wss.clients` set, as the relay observes it: an
identity, whether `readyState === OPEN`, and whether `send` succeeds. -/
structure Client where
  id : Nat
  readyStateOpen : Bool
  sendOk : Bool
deriving DecidableEq, Repr

/-- The truncation marker appended to over-long log previews. -/
def truncMarker : String := "……（已截断）"

/-- The length-capped log preview of the outgoing payload. -/
def previewOf (outgoing : String) : String :=
  if outgoing.length > 200 then outgoing.take 200 ++ truncMarker else outgoing

/-- Observable outcome of one `broadcast` call: the outgoing string, the
ids to which a send was attempted (open, non-sender), the ids to which
the send succeeded, the two logged counters, and the logged preview. -/
structure BroadcastResult where
  outgoing : String
  attempted : List Nat
  delivered : List Nat
  sentCount : Nat
  totalOnline : Nat
  preview : String
deriving DecidableEq, Repr

/-- The broadcast relay (`broadcast` in `src/broadcast.js`): re-encode a
decodable payload canonically (raw text otherwise), count open clients,
and fan out to every open client other than the sender. `parsed` is the
outcome of `JSON.parse rawStr` (the relay parses the same bytes the
session handler did). -/
def broadcast (sender : Nat) (rawStr : String) (parsed : Option JsonVal)
    (clients : List Client) : BroadcastResult :=
  let outgoing := match parsed with
    | some v => encode v
    | none => rawStr
  let totalOnline := (clients.filter (fun c => c.readyStateOpen)).length
  let targets := clients.filter (fun c => c.id != sender && c.readyStateOpen)
  let delivered := (targets.filter (fun c => c.sendOk)).map (fun c => c.id)
  { outgoing := outgoing
    attempted := targets.map (fun c => c.id)
    delivered := delivered
    sentCount := delivered.length
    totalOnline := totalOnline
    preview := previewOf outgoing }

/-! ## Heartbeat manager (`src/heartbeat.js`)

The manager keeps `clientMap : Map<ws, {isAlive, lastPingSentAt, ip}>`.
Sockets are modelled by identities (`Nat`); the map by an association
list with unique keys (`Map` keys are object identities). Times are
milliseconds as `Nat` (`Date.now()`).
-/

/-- One `clientMap` entry: the per-connection liveness record. -/
structure HBEntry where
  isAlive : Bool
  lastPingSentAt : Nat
  ip : String
deriving DecidableEq, Repr

/-- The heartbeat manager's connection registry (`clientMap`). -/
abbrev Registry := List (Nat × HBEntry)

/-- The socket identities currently registered. -/
def keys (reg : Registry) : List Nat :=
  reg.map Prod.fst

/-- `Map.prototype.set`: replace the entry of an existing key, otherwise
append a fresh one. -/
def regSet (sock : Nat) (e : HBEntry) (reg : Registry) : Registry :=
  if reg.any (fun p => p.1 == sock) then
    reg.map (fun p => if p.1 = sock then (sock, e) else p)
  else
    reg ++ [(sock, e)]

/-- `register(socket, ip)`: set the entry to alive with the current time
(`clientMap.set(socket, { isAlive: true, lastPingSentAt: Date.now(), ip })`). -/
def register (sock : Nat) (ip : String) (now : Nat) (reg : Registry) : Registry :=
  regSet sock ⟨true, now, ip⟩ reg

/-- `unregister(socket)`: `clientMap.delete(socket)`. -/
def unregister (sock : Nat) (reg : Registry) : Registry :=
  reg.filter (fun p => p.1 != sock)

/-- `markAlive(socket)`: look the socket up and, only when an entry
exists, set its `isAlive` to `true`; otherwise do nothing. -/
def markAlive (sock : Nat) (reg : Registry) : Registry :=
  reg.map (fun p => if p.1 = sock then (p.1, { p.2 with isAlive := true }) else p)

/-- The `pong`-frame listener installed by `register`: the same
lookup-guarded `entry.isAlive = true` as `markAlive`. -/
def onPong (sock : Nat) (reg : Registry) : Registry :=
  reg.map (fun p => if p.1 = sock then (p.1, { p.2 with isAlive := true }) else p)

/-- One entry's fate at a timer tick (`setInterval` callback in `start`):
evicted (`none`) when not alive and `now - lastPingSentAt >= timeout`;
otherwise reset to ping-pending with `lastPingSentAt = now`. -/
def tickEntry (timeout now : Nat) (e : HBEntry) : Option HBEntry :=
  if !e.isAlive && decide (timeout ≤ now - e.lastPingSentAt) then
    none
  else
    some { e with isAlive := false, lastPingSentAt := now }

/-- One full timer tick over the registry: each entry is either evicted
(deleted and its socket terminated) or reset to ping-pending. -/
def tick (timeout now : Nat) (reg : Registry) : Registry :=
  reg.filterMap (fun p => (tickEntry timeout now p.2).map (fun e => (p.1, e)))

/-- The sockets evicted (`clientMap.delete` + `socket.terminate()`) at a
tick at time `now`. -/
def tickEvicted (timeout now : Nat) (reg : Registry) : List Nat :=
  (reg.filter (fun p => !p.2.isAlive && decide (timeout ≤ now - p.2.lastPingSentAt))).map
    (fun p => p.1)

/-- The registry after `k` timer ticks, the `i`-th tick firing at time
`t0 + interval * i` (the nominal `setInterval` schedule started at `t0`). -/
def ticksRun (timeout interval t0 : Nat) (reg : Registry) : Nat → Registry
  | 0 => reg
  | k + 1 => tick timeout (t0 + interval * (k + 1)) (ticksRun timeout interval t0 reg k)

/-! ## Listener orchestration (`startListeners`, `server.js`) -/

/-- The loopback-fallback test of `startListeners`:
`host !== '0.0.0.0' && host !== '127.0.0.1' && host !== '::1'`. -/
def needLoopback (host : String) : Bool :=
  host != "0.0.0.0" && host != "127.0.0.1" && host != "::1"

/-- One bound HTTP(S) listener: its address, and the identities of the
shared WebSocket server and heartbeat manager its upgrades are routed to
(`bindUpgrade(server, wsServer)` with the group's single `wsServer`/`hbMgr`). -/
structure ListenerRec where
  host : String
  port : Nat
  wsServerId : Nat
  hbMgrId : Nat
deriving DecidableEq, Repr

/-- `startListeners`: always bind the configured `host:port`; bind an
additional `127.0.0.1:port` listener exactly when `needLoopback host`.
Both listeners forward upgrades to the same `wsServer` and `hbMgr`. -/
def startListeners (host : String) (port wsServerId hbMgrId : Nat) : List ListenerRec :=
  let primary : ListenerRec := ⟨host, port, wsServerId, hbMgrId⟩
  if needLoopback host then
    [primary, ⟨"127.0.0.1", port, wsServerId, hbMgrId⟩]
  else
    [primary]

/-! ## Startup outcome (`server.js` top level)

The plaintext group is created whenever `config.ws.enabled`. For the TLS
group, `fs.readFileSync` of the certificate material may throw: on that
failure the process exits fatally only when the plaintext group is not
enabled, otherwise the TLS group is skipped. A primary listener error
(`primaryServer.on('error')`, lines 169-171) and a loopback listener
error (lines 182-185) are only logged: neither changes the outcome.
-/

/-- The enabled-protocol part of the loaded configuration. -/
structure StartupConfig where
  wsEnabled : Bool
  wssEnabled : Bool
deriving DecidableEq, Repr

/-- Environment facts observed during startup: whether the TLS material
reads succeed and whether each primary `listen` call succeeds (a failed
`listen` surfaces as an `error` event on that server). -/
structure StartupEnv where
  certReadOk : Bool
  wsPrimaryBindOk : Bool
  wssPrimaryBindOk : Bool
deriving DecidableEq, Repr

/-- Process-level outcome of the startup sequence. -/
inductive StartupOutcome where
  | fatalExit (code : Nat)
  | running (groups : List String)
deriving DecidableEq, Repr

/-- The startup control flow of `server.js`: group creation, the TLS
material `try`/`catch`, and the error handlers that merely log. -/
def startupModel (cfg : StartupConfig) (env : StartupEnv) : StartupOutcome :=
  let wsGroups := if cfg.wsEnabled then ["WS"] else []
  if cfg.wssEnabled && !env.certReadOk && !cfg.wsEnabled then
    .fatalExit 1
  else
    let wssGroups := if cfg.wssEnabled && env.certReadOk then ["WSS"] else []
    .running (wsGroups ++ wssGroups)

/-! ## Graceful shutdown (`gracefulShutdown`, `server.js`) -/

/-- The mutable state of one heartbeat manager: whether its interval
timer is armed, and its registry. -/
structure HBManagerState where
  timerRunning : Bool
  registry : Registry
deriving DecidableEq, Repr

/-- `stop()`: `clearInterval` and `clientMap.clear()`. -/
def hbStop (_ : HBManagerState) : HBManagerState :=
  ⟨false, []⟩

/-- One entry of the `servers` array at shutdown time: the group's
heartbeat manager state, the ids in `wsServer.clients`, and the time (ms
after the signal) at which the group's `close` callbacks all complete —
`none` when a close callback never fires. -/
structure GroupState where
  hb : HBManagerState
  clients : List Nat
  closeCompletesAt : Option Nat
deriving DecidableEq, Repr

/-- The hard-coded shutdown deadline: `setTimeout(..., 5000)`. -/
def shutdownGraceMs : Nat := 5000

/-- Observable outcome of `gracefulShutdown`: the groups after their
heartbeat managers were stopped, the forcibly terminated client ids, and
the process exit time (ms after the signal) and exit code. -/
structure ShutdownResult where
  groupsAfter : List GroupState
  terminated : List Nat
  exitTime : Nat
  exitCode : Nat
deriving DecidableEq, Repr

/-- The time at which the last group's close callbacks complete, or
`none` when some close callback never fires. An empty group list gives
`some 0`: `gracefulShutdown` exits `0` immediately then. -/
def allCloseBound : List GroupState → Option Nat
  | [] => some 0
  | g :: rest =>
    match g.closeCompletesAt, allCloseBound rest with
    | some t, some m => some (max t m)
    | _, _ => none

/-- `gracefulShutdown(signal)`: stop every group's heartbeat manager,
terminate every client of every group, then `process.exit(0)` once all
WebSocket servers and HTTP listeners have closed — unless the fixed
5-second deadline fires first, which forces `process.exit(1)`. -/
def gracefulShutdown (groups : List GroupState) : ShutdownResult :=
  let terminated := (groups.map (fun g => g.clients)).foldr (fun a b => a ++ b) []
  let groupsAfter := groups.map (fun g => { g with hb := hbStop g.hb })
  match allCloseBound groups with
  | some t =>
    if t < shutdownGraceMs then
      ⟨groupsAfter, terminated, t, 0⟩
    else
      ⟨groupsAfter, terminated, shutdownGraceMs, 1⟩
  | none => ⟨groupsAfter, terminated, shutdownGraceMs, 1⟩

/-- Modelled from the spec: "A hard deadline (configurable grace period,
default 5 seconds from signal receipt) forces immediate process
termination" — the property that a configured grace period `g` bounds
the shutdown exit time. The code of `gracefulShutdown` draws its
deadline from no configuration value, so this fails for any `g` below
the hard-coded 5000. -/
def specConfiguredGraceRespected (g : Nat) : Prop :=
  ∀ groups : List GroupState, (gracefulShutdown groups).exitTime ≤ g

/-! ## Helper lemmas -/

/-- The strict comparison against the string literal succeeds exactly on
the string value `ping`. -/
theorem isPingString_iff (o : Option JsonVal) :
    isPingString o = true ↔ o = some (.str "ping") := by
  rcases o with _ | v
  · simp [isPingString]
  · cases v <;> simp [isPingString]

/-- Characterization of the session handler's interception test. -/
theorem isAppPing_some_iff (v : JsonVal) :
    isAppPing (some v) = true ↔ (jsTruthy v = true ∧ typeProp v = some (.str "ping")) := by
  rw [isAppPing, Bool.and_eq_true, isPingString_iff]

/-- The loopback test succeeds exactly away from the wildcard and the
two loopback literals. -/
theorem needLoopback_iff (host : String) :
    needLoopback host = true ↔
      (host ≠ "0.0.0.0" ∧ host ≠ "127.0.0.1" ∧ host ≠ "::1") := by
  simp [needLoopback, Bool.and_eq_true, bne_iff_ne, and_assoc]

/-- Marking alive twice is marking alive once. -/
theorem markAlive_idem (sock : Nat) (reg : Registry) :
    markAlive sock (markAlive sock reg) = markAlive sock reg := by
  induction reg with
  | nil => rfl
  | cons p rest ih =>
    by_cases h : p.1 = sock <;> simp [markAlive, h] at ih ⊢ <;> exact ih

/-- Any positive number of consecutive `markAlive` calls equals one. -/
theorem markAlive_iterate (sock : Nat) (reg : Registry) (m : Nat) :
    (markAlive sock)^[m + 1] reg = markAlive sock reg := by
  induction m with
  | zero => rfl
  | succ k ih =>
    rw [Function.iterate_succ_apply', ih, markAlive_idem]

/-- `markAlive` on an unregistered socket leaves the registry unchanged. -/
theorem markAlive_of_not_mem (sock : Nat) (reg : Registry) (h : sock ∉ keys reg) :
    markAlive sock reg = reg := by
  induction reg with
  | nil => rfl
  | cons p rest ih =>
    simp [keys] at h ih
    simp [markAlive] at ih ⊢
    exact ⟨fun hp => absurd hp.symm h.1, ih h.2⟩

/-- The native-pong listener body coincides with `markAlive`. -/
theorem onPong_eq_markAlive (sock : Nat) (reg : Registry) :
    onPong sock reg = markAlive sock reg := rfl

/-- `markAlive` never creates or deletes an entry. -/
theorem keys_markAlive (sock : Nat) (reg : Registry) :
    keys (markAlive sock reg) = keys reg := by
  induction reg with
  | nil => rfl
  | cons p rest ih =>
    by_cases h : p.1 = sock <;> simp [keys, markAlive, h] at ih ⊢ <;> exact ih

/-- After `unregister`, the socket is gone from the key set. -/
theorem not_mem_keys_unregister (sock : Nat) (reg : Registry) :
    sock ∉ keys (unregister sock reg) := by
  simp only [keys, unregister, List.mem_map]
  rintro ⟨p, hp, rfl⟩
  have := (List.mem_filter.mp hp).2
  simp at this

/-- An alive entry survives the next tick. -/
theorem mem_keys_tick_markAlive (sock : Nat) (reg : Registry) (timeout now : Nat)
    (h : sock ∈ keys reg) :
    sock ∈ keys (tick timeout now (markAlive sock reg)) := by
  induction reg with
  | nil => simp [keys] at h
  | cons p rest ih =>
    simp only [keys, List.map_cons, List.mem_cons] at h
    rcases h with h | h
    · simp [markAlive, tick, tickEntry, keys, ← h]
    · by_cases hp : p.1 = sock
      · simp [markAlive, tick, tickEntry, keys, hp]
      · have htail := ih h
        simp only [markAlive, tick, keys, List.map_cons, List.filterMap_cons] at htail ⊢
        rw [if_neg hp]
        rcases htick : tickEntry timeout now p.2 with _ | e
        · simpa [htick] using htail
        · simpa [htick] using Or.inr (by simpa using htail)

/-- State of a never-acknowledging connection registered at `t0` into an
empty registry, after `k` nominal ticks: still present, ping-pending
from the first tick on, with `lastPingSentAt` equal to the latest tick
time — because every tick overwrites `lastPingSentAt`. -/
theorem ticksRun_register_state (timeout interval t0 sock : Nat) (ip : String)
    (hlt : interval < timeout) :
    ∀ k, ticksRun timeout interval t0 (register sock ip t0 []) k =
      [(sock, ⟨decide (k = 0), t0 + interval * k, ip⟩)] := by
  intro k
  induction k with
  | zero => simp [ticksRun, register, regSet]
  | succ m ih =>
    rw [ticksRun, ih]
    rcases Nat.eq_zero_or_pos m with rfl | hm
    · simp [tick, tickEntry]
    · have hm0 : m ≠ 0 := by omega
      have hsub : (t0 + interval * (m + 1)) - (t0 + interval * m) = interval := by
        rw [Nat.mul_succ]; omega
      have hnle : ¬ (timeout ≤ interval) := by omega
      simp [tick, tickEntry, hm0, hsub, hnle]

/-- The shutdown result, written out branch by branch. -/
theorem gracefulShutdown_eq (groups : List GroupState) :
    gracefulShutdown groups =
      ⟨groups.map (fun g => { g with hb := hbStop g.hb }),
       (groups.map (fun g => g.clients)).foldr (fun a b => a ++ b) [],
       (match allCloseBound groups with
        | some t => if t < shutdownGraceMs then t else shutdownGraceMs
        | none => shutdownGraceMs),
       (match allCloseBound groups with
        | some t => if t < shutdownGraceMs then 0 else 1
        | none => 1)⟩ := by
  unfold gracefulShutdown
  rcases allCloseBound groups with _ | t
  · rfl
  · by_cases h : t < shutdownGraceMs <;> simp [h]

/-- Membership in the concatenation of all groups' client lists. -/
theorem mem_terminatedList (x : Nat) (g : GroupState) (groups : List GroupState)
    (hg : g ∈ groups) (hx : x ∈ g.clients) :
    x ∈ (groups.map (fun g => g.clients)).foldr (fun a b => a ++ b) [] := by
  induction groups with
  | nil => cases hg
  | cons a rest ih =>
    rcases List.mem_cons.mp hg with rfl | hg'
    · simp only [List.map_cons, List.foldr_cons, List.mem_append]
      exact Or.inl hx
    · simp only [List.map_cons, List.foldr_cons, List.mem_append]
      exact Or.inr (ih hg')

/-- Short payloads are previewed verbatim. -/
theorem previewOf_le (s : String) (h : s.length ≤ 200) : previewOf s = s := by
  rw [previewOf, if_neg]
  omega

/-- Long payloads are previewed by their first 200 characters plus the
truncation marker. -/
theorem previewOf_gt (s : String) (h : 200 < s.length) :
    previewOf s = s.take 200 ++ truncMarker := by
  rw [previewOf, if_pos]
  omega

/-! ## Claim theorems -/

/-- Claim C1 (code bug): the spec says a connection that never
acknowledges any probe is evicted between `interval + timeout` and
`interval + timeout + one tick` after its last acknowledgment, and the
heartbeat module's own header comment and the README say the same. The
code instead overwrites `lastPingSentAt` at every tick for every
non-evicted entry, so at each check the elapsed time is exactly one
interval; whenever `interval < timeout` (both documented default
configurations) the eviction branch never fires: the connection stays
registered and is never terminated, at every tick. -/
theorem zombie_never_evicted (timeout interval t0 sock : Nat) (ip : String)
    (hlt : interval < timeout) (k : Nat) :
    sock ∈ keys (ticksRun timeout interval t0 (register sock ip t0 []) k) ∧
    tickEvicted timeout (t0 + interval * (k + 1))
      (ticksRun timeout interval t0 (register sock ip t0 []) k) = [] := by
  have hstate := ticksRun_register_state timeout interval t0 sock ip hlt
  constructor
  · rw [hstate k]; simp [keys]
  · rw [hstate k]
    rcases Nat.eq_zero_or_pos k with rfl | hk
    · simp [tickEvicted]
    · have hk0 : k ≠ 0 := by omega
      have hsub : (t0 + interval * (k + 1)) - (t0 + interval * k) = interval := by
        rw [Nat.mul_succ]; omega
      have hnle : ¬ (timeout ≤ interval) := by omega
      simp [tickEvicted, hk0, hsub, hnle]

/-- Witness for C1: with the config-loader default heartbeat settings
(`interval = 15000`, `timeout = 30000`), a connection registered at time
0 that never acknowledges anything is still registered after three ticks
and is not evicted at the fourth. -/
theorem zombie_never_evicted_witness :
    1 ∈ keys (ticksRun 30000 15000 0 (register 1 "203.0.113.7" 0 []) 3) ∧
    tickEvicted 30000 (0 + 15000 * (3 + 1))
      (ticksRun 30000 15000 0 (register 1 "203.0.113.7" 0 []) 3) = [] :=
  zombie_never_evicted 30000 15000 0 1 "203.0.113.7" (by decide) 3

/-- Claim C2 (counterexample): a JSON object whose `type` field is
`ping` but which carries an additional field is intercepted by the
session handler — `markAlive` is called and nothing is handed to the
broadcast relay — contrary to the claim that only the exact reserved
probe is intercepted and such a message is broadcast. -/
theorem ping_with_extra_field_intercepted :
    (onMessage "\x7b\"type\":\"ping\",\"extra\":1\x7d"
      (some (.obj [("type", .str "ping"), ("extra", .num 1)]))).relayedPayload = none ∧
    (onMessage "\x7b\"type\":\"ping\",\"extra\":1\x7d"
      (some (.obj [("type", .str "ping"), ("extra", .num 1)]))).markAliveCalled = true :=
  ⟨rfl, rfl⟩

/-- Claim C2 (amended): a received payload is handed unchanged to the
broadcast relay — which re-encodes decodable payloads canonically — if
and only if its decoding is not a truthy value whose `type` property is
the string `ping`; every decoded value with `type` equal to `ping`,
including objects carrying additional fields, is intercepted and
answered with one `pong`. -/
theorem ping_type_interception_characterization (raw : String) (v : JsonVal)
    (sender : Nat) (clients : List Client) :
    ((onMessage raw (some v)).relayedPayload = some raw ↔
        ¬ (jsTruthy v = true ∧ typeProp v = some (.str "ping"))) ∧
    (onMessage raw none).relayedPayload = some raw ∧
    ((onMessage raw (some v)).relayedPayload = none →
        (onMessage raw (some v)).markAliveCalled = true ∧
        (onMessage raw (some v)).repliesToSender = ["\x7b\"type\":\"pong\"\x7d"]) ∧
    (broadcast sender raw (some v) clients).outgoing = encode v := by
  refine ⟨?_, rfl, ?_, rfl⟩
  · rw [← isAppPing_some_iff]
    by_cases h : isAppPing (some v) <;> simp [onMessage, h]
  · intro hnone
    by_cases h : isAppPing (some v)
    · constructor
      · simp [onMessage, h]
      · simp only [onMessage, if_pos h]
        rfl
    · simp [onMessage, h] at hnone

/-- Witness for C2's amended theorem: a chat object is relayed unchanged
and re-encoded canonically; the exact probe is intercepted with one
`pong`. -/
theorem ping_type_interception_characterization_witness :
    ((onMessage "\x7b\"type\":\"chat\"\x7d" (some (.obj [("type", .str "chat")]))).relayedPayload =
        some "\x7b\"type\":\"chat\"\x7d" ↔
      ¬ (jsTruthy (.obj [("type", .str "chat")]) = true ∧
         typeProp (.obj [("type", .str "chat")]) = some (.str "ping"))) ∧
    ((onMessage "x" (some (.obj [("type", .str "ping")]))).markAliveCalled = true ∧
      (onMessage "x" (some (.obj [("type", .str "ping")]))).repliesToSender =
        ["\x7b\"type\":\"pong\"\x7d"]) :=
  ⟨(ping_type_interception_characterization "\x7b\"type\":\"chat\"\x7d"
      (.obj [("type", .str "chat")]) 0 []).1,
   (ping_type_interception_characterization "x" (.obj [("type", .str "ping")]) 0 []).2.2.1 rfl⟩

/-- Claim C3 (counterexample): with only the plaintext group enabled and
its primary listener failing to bind, the process keeps running (the
error is only logged) — contrary to the claim that a primary bind
failure is fatal when no other protocol group is active. -/
theorem ws_bind_failure_not_fatal :
    startupModel ⟨true, false⟩ ⟨true, false, true⟩ = .running ["WS"] ∧
    startupModel ⟨true, false⟩ ⟨true, false, true⟩ ≠ .fatalExit 1 :=
  ⟨rfl, by decide⟩

/-- Claim C3 (amended): a primary listener bind failure is only logged
and never changes the startup outcome; the fatal path exists only for
TLS certificate load failure with the plaintext group disabled, and when
the plaintext group is enabled a certificate load failure skips the TLS
group while the plaintext group continues. -/
theorem startup_failure_handling (cfg : StartupConfig) (env : StartupEnv) :
    (startupModel cfg env = .fatalExit 1 ↔
        (cfg.wssEnabled = true ∧ env.certReadOk = false ∧ cfg.wsEnabled = false)) ∧
    (∀ b1 b2 : Bool, startupModel cfg ⟨env.certReadOk, b1, b2⟩ = startupModel cfg env) ∧
    (cfg.wsEnabled = true → cfg.wssEnabled = true → env.certReadOk = false →
        startupModel cfg env = .running ["WS"]) := by
  obtain ⟨ws, wss⟩ := cfg
  obtain ⟨c, p1, p2⟩ := env
  cases ws <;> cases wss <;> cases c <;> cases p1 <;> cases p2 <;> decide

/-- Witness for C3's amended theorem: both groups enabled, certificate
load fails — the WSS group is skipped and WS continues running. -/
theorem startup_failure_handling_witness :
    startupModel ⟨true, true⟩ ⟨false, true, true⟩ = .running ["WS"] :=
  (startup_failure_handling ⟨true, true⟩ ⟨false, true, true⟩).2.2 rfl rfl rfl

/-- Claim C4 (counterexample): the shutdown deadline of
`gracefulShutdown` is the hard-coded 5000 ms; it is drawn from no
configuration value, so a configured grace period (for instance one
second) is not respected when a close callback never fires. -/
theorem shutdown_grace_not_configurable :
    (gracefulShutdown [⟨⟨true, [(1, ⟨true, 0, "a"⟩)]⟩, [1], none⟩]).exitTime = 5000 ∧
    ¬ specConfiguredGraceRespected 1000 :=
  ⟨rfl, fun hspec => absurd (hspec [⟨⟨true, []⟩, [], none⟩]) (by decide)⟩

/-- Claim C4 (amended): after a shutdown signal, every group's heartbeat
timer is stopped and its registry cleared, every connection in every
group's registry (being among that group's clients) is forcibly
terminated, the process exits with status 0 at the time all WebSocket
servers and HTTP listeners have closed when that happens before the
fixed (non-configurable) 5-second deadline, and otherwise — in
particular when a close callback never fires — the process is forcibly
terminated with exit status 1 at the deadline. -/
theorem gracefulShutdown_behavior (groups : List GroupState) :
    (∀ g ∈ (gracefulShutdown groups).groupsAfter,
        g.hb.timerRunning = false ∧ g.hb.registry = []) ∧
    (∀ g ∈ groups, ∀ p ∈ g.hb.registry, p.1 ∈ g.clients →
        p.1 ∈ (gracefulShutdown groups).terminated) ∧
    ((gracefulShutdown groups).exitTime ≤ shutdownGraceMs) ∧
    (∀ t, allCloseBound groups = some t → t < shutdownGraceMs →
        (gracefulShutdown groups).exitCode = 0 ∧ (gracefulShutdown groups).exitTime = t) ∧
    (allCloseBound groups = none →
        (gracefulShutdown groups).exitCode = 1 ∧
        (gracefulShutdown groups).exitTime = shutdownGraceMs) := by
  rw [gracefulShutdown_eq]
  refine ⟨?_, ?_, ?_, ?_, ?_⟩
  · intro g hg
    simp only [List.mem_map] at hg
    obtain ⟨g0, _, rfl⟩ := hg
    exact ⟨rfl, rfl⟩
  · intro g hg p hp hpc
    exact mem_terminatedList p.1 g groups hg hpc
  · rcases allCloseBound groups with _ | t
    · simp
    · by_cases h : t < shutdownGraceMs
      · simp only [if_pos h]
        omega
      · simp only [if_neg h]
        omega
  · intro t ht hlt
    simp [ht, hlt]
  · intro h
    simp [h]

/-- Witness for C4's amended theorem: one group whose registered
connection 1 is among its clients and whose close callbacks complete at
10 ms — connection 1 is terminated, and the process exits cleanly with
status 0 at 10 ms. -/
theorem gracefulShutdown_behavior_witness :
    1 ∈ (gracefulShutdown [⟨⟨true, [(1, ⟨true, 0, "a"⟩)]⟩, [1, 2], some 10⟩]).terminated ∧
    (gracefulShutdown [⟨⟨true, [(1, ⟨true, 0, "a"⟩)]⟩, [1, 2], some 10⟩]).exitCode = 0 ∧
    (gracefulShutdown [⟨⟨true, [(1, ⟨true, 0, "a"⟩)]⟩, [1, 2], some 10⟩]).exitTime = 10 :=
  ⟨(gracefulShutdown_behavior [⟨⟨true, [(1, ⟨true, 0, "a"⟩)]⟩, [1, 2], some 10⟩]).2.1
      ⟨⟨true, [(1, ⟨true, 0, "a"⟩)]⟩, [1, 2], some 10⟩ (by decide)
      (1, ⟨true, 0, "a"⟩) (by decide) (by decide),
   ((gracefulShutdown_behavior [⟨⟨true, [(1, ⟨true, 0, "a"⟩)]⟩, [1, 2], some 10⟩]).2.2.2.1
      10 rfl (by decide)).1,
   ((gracefulShutdown_behavior [⟨⟨true, [(1, ⟨true, 0, "a"⟩)]⟩, [1, 2], some 10⟩]).2.2.2.1
      10 rfl (by decide)).2⟩

/-- Claim C5: a payload whose decoding is exactly the object with the
single field `type` = `ping` is intercepted: `markAlive` is invoked,
exactly one `pong` message is sent back to the sender, and the payload
is never handed to the broadcast relay. -/
theorem exact_ping_probe_handled (raw : String) :
    onMessage raw (some (.obj [("type", .str "ping")])) =
      { markAliveCalled := true
        repliesToSender := ["\x7b\"type\":\"pong\"\x7d"]
        relayedPayload := none } := rfl

/-- Claim C6: for every sender, payload, decode outcome and client set,
the sender is never among the connections the relay attempts to send to,
nor among those a send succeeded for: the fan-out loop always skips the
sender. -/
theorem broadcast_no_echo (sender : Nat) (raw : String) (parsed : Option JsonVal)
    (clients : List Client) :
    sender ∉ (broadcast sender raw parsed clients).attempted ∧
    sender ∉ (broadcast sender raw parsed clients).delivered := by
  constructor
  all_goals
    simp only [broadcast, List.mem_map, List.mem_filter, not_exists]
    rintro c ⟨hc, rfl⟩
    simp only [Bool.and_eq_true, bne_iff_ne, ne_eq] at hc
    simp at hc

/-- Claim C7: `startListeners` binds exactly two listeners if and only
if the configured host is neither the wildcard `0.0.0.0` nor one of the
loopback literals `127.0.0.1` and `::1`; for host `192.168.1.10` both
that address and `127.0.0.1` are bound while for `0.0.0.0` only one
listener is bound; and every bound listener routes upgrades to the same
WebSocket server and heartbeat manager. -/
theorem loopback_fallback (host : String) (port w h : Nat) :
    ((startListeners host port w h).length = 2 ↔
        (host ≠ "0.0.0.0" ∧ host ≠ "127.0.0.1" ∧ host ≠ "::1")) ∧
    (startListeners "192.168.1.10" port w h).map ListenerRec.host =
        ["192.168.1.10", "127.0.0.1"] ∧
    (startListeners "0.0.0.0" port w h).map ListenerRec.host = ["0.0.0.0"] ∧
    ∀ l ∈ startListeners host port w h,
      l.wsServerId = w ∧ l.hbMgrId = h ∧ l.port = port := by
  refine ⟨?_, rfl, rfl, ?_⟩
  · rw [← needLoopback_iff]
    by_cases hn : needLoopback host <;> simp [startListeners, hn]
  · intro l hl
    rw [startListeners] at hl
    split at hl <;> simp only [List.mem_cons, List.mem_singleton, List.not_mem_nil] at hl
    · rcases hl with rfl | rfl | hl
      · exact ⟨rfl, rfl, rfl⟩
      · exact ⟨rfl, rfl, rfl⟩
      · cases hl
    · rcases hl with rfl | hl
      · exact ⟨rfl, rfl, rfl⟩
      · cases hl

/-- Witness for C7: the concrete hosts of the claim, and the second
(loopback) listener of the `192.168.1.10` group shares WebSocket server
1 and heartbeat manager 2 with the primary. -/
theorem loopback_fallback_witness :
    (startListeners "192.168.1.10" 8070 1 2).map ListenerRec.host =
        ["192.168.1.10", "127.0.0.1"] ∧
    ((ListenerRec.mk "127.0.0.1" 8070 1 2).wsServerId = 1 ∧
      (ListenerRec.mk "127.0.0.1" 8070 1 2).hbMgrId = 2 ∧
      (ListenerRec.mk "127.0.0.1" 8070 1 2).port = 8070) :=
  ⟨(loopback_fallback "192.168.1.10" 8070 1 2).2.1,
   (loopback_fallback "192.168.1.10" 8070 1 2).2.2.2
      ⟨"127.0.0.1", 8070, 1, 2⟩ (by simp [startListeners, needLoopback])⟩

/-- Claim C8: a payload that fails JSON decoding is forwarded as its
exact original text, and a send is attempted (and with a functioning
channel succeeds) for every open non-sender client; for every payload,
the logged preview is the outgoing string itself when it has at most 200
characters, and its first 200 characters with the truncation marker
appended when longer. -/
theorem non_json_passthrough_and_preview (sender : Nat) (raw : String)
    (clients : List Client) (parsed : Option JsonVal) :
    (broadcast sender raw none clients).outgoing = raw ∧
    (∀ c ∈ clients, c.id ≠ sender → c.readyStateOpen = true → c.sendOk = true →
        c.id ∈ (broadcast sender raw none clients).delivered) ∧
    ((broadcast sender raw parsed clients).outgoing.length ≤ 200 →
        (broadcast sender raw parsed clients).preview =
          (broadcast sender raw parsed clients).outgoing) ∧
    (200 < (broadcast sender raw parsed clients).outgoing.length →
        (broadcast sender raw parsed clients).preview =
          (broadcast sender raw parsed clients).outgoing.take 200 ++ truncMarker) := by
  refine ⟨rfl, ?_, ?_, ?_⟩
  · intro c hc h1 h2 h3
    simp only [broadcast, List.mem_map, List.mem_filter]
    exact ⟨c, ⟨⟨hc, by simp [h1, h2]⟩, h3⟩, rfl⟩
  · intro hle
    exact previewOf_le _ hle
  · intro hgt
    exact previewOf_gt _ hgt

/-- Witness for C8: the non-JSON text `hello` is forwarded verbatim to
the open non-sender client 2 and previewed verbatim. -/
theorem non_json_passthrough_and_preview_witness :
    (broadcast 1 "hello" none [⟨2, true, true⟩]).outgoing = "hello" ∧
    2 ∈ (broadcast 1 "hello" none [⟨2, true, true⟩]).delivered ∧
    (broadcast 1 "hello" none [⟨2, true, true⟩]).preview =
      (broadcast 1 "hello" none [⟨2, true, true⟩]).outgoing :=
  ⟨(non_json_passthrough_and_preview 1 "hello" [⟨2, true, true⟩] none).1,
   (non_json_passthrough_and_preview 1 "hello" [⟨2, true, true⟩] none).2.1
      ⟨2, true, true⟩ (by decide) (by decide) rfl rfl,
   (non_json_passthrough_and_preview 1 "hello" [⟨2, true, true⟩] none).2.2.1 (by decide)⟩

/-- Claim C9: for a registered connection, calling `markAlive` any
positive number of times between two ticks leaves its liveness record
exactly as one call does — `isAlive` set, every other field of every
entry unchanged — and the connection is not evicted at the next tick. -/
theorem markAlive_idempotent_not_evicted (sock : Nat) (reg : Registry) (n : Nat)
    (hn : 1 ≤ n) (timeout now : Nat) :
    ((markAlive sock)^[n] reg = markAlive sock reg) ∧
    ((markAlive sock reg).map (fun p => (p.1, p.2.lastPingSentAt, p.2.ip)) =
        reg.map (fun p => (p.1, p.2.lastPingSentAt, p.2.ip))) ∧
    (∀ p ∈ markAlive sock reg, p.1 = sock → p.2.isAlive = true) ∧
    (sock ∈ keys reg → sock ∈ keys (tick timeout now (markAlive sock reg))) := by
  refine ⟨?_, ?_, ?_, ?_⟩
  · obtain ⟨m, rfl⟩ : ∃ m, n = m + 1 := ⟨n - 1, by omega⟩
    exact markAlive_iterate sock reg m
  · induction reg with
    | nil => rfl
    | cons p rest ih =>
      by_cases h : p.1 = sock <;> simp [markAlive, h] at ih ⊢ <;> exact ih
  · intro p hp hps
    simp only [markAlive, List.mem_map] at hp
    obtain ⟨q, hq, rfl⟩ := hp
    by_cases h : q.1 = sock
    · simp [h]
    · simp only [if_neg h] at hps ⊢
      exact absurd hps h
  · exact mem_keys_tick_markAlive sock reg timeout now

/-- Witness for C9: three consecutive `markAlive` calls on a registered
ping-pending connection equal one call, and it survives the next tick. -/
theorem markAlive_idempotent_not_evicted_witness :
    ((markAlive 1)^[3] [(1, ⟨false, 0, "a"⟩)] = markAlive 1 [(1, ⟨false, 0, "a"⟩)]) ∧
    1 ∈ keys (tick 30000 15000 (markAlive 1 [(1, ⟨false, 0, "a"⟩)])) :=
  ⟨(markAlive_idempotent_not_evicted 1 [(1, ⟨false, 0, "a"⟩)] 3 (by decide) 30000 15000).1,
   (markAlive_idempotent_not_evicted 1 [(1, ⟨false, 0, "a"⟩)] 3 (by decide) 30000 15000).2.2.2
      (by decide)⟩

/-- Claim C10: an acknowledgment (`markAlive` call or native pong event)
for a socket not present in the registry leaves the registry unchanged —
in particular a connection removed by `unregister` is never re-inserted
by a late acknowledgment — and an acknowledgment never creates or
deletes an entry. -/
theorem unregistered_ack_noop (sock : Nat) (reg : Registry) :
    (sock ∉ keys reg → markAlive sock reg = reg ∧ onPong sock reg = reg) ∧
    markAlive sock (unregister sock reg) = unregister sock reg ∧
    onPong sock (unregister sock reg) = unregister sock reg ∧
    keys (markAlive sock reg) = keys reg ∧
    keys (onPong sock reg) = keys reg := by
  refine ⟨?_, ?_, ?_, ?_, ?_⟩
  · intro h
    exact ⟨markAlive_of_not_mem sock reg h,
      (onPong_eq_markAlive sock reg).trans (markAlive_of_not_mem sock reg h)⟩
  · exact markAlive_of_not_mem sock _ (not_mem_keys_unregister sock reg)
  · exact (onPong_eq_markAlive sock _).trans
      (markAlive_of_not_mem sock _ (not_mem_keys_unregister sock reg))
  · exact keys_markAlive sock reg
  · exact (congrArg keys (onPong_eq_markAlive sock reg)).trans (keys_markAlive sock reg)

/-- Witness for C10: a late acknowledgment for the absent socket 1 is a
no-op on a registry holding only socket 2. -/
theorem unregistered_ack_noop_witness :
    markAlive 1 [(2, ⟨true, 5, "a"⟩)] = [(2, ⟨true, 5, "a"⟩)] ∧
    onPong 1 [(2, ⟨true, 5, "a"⟩)] = [(2, ⟨true, 5, "a"⟩)] :=
  (unregistered_ack_noop 1 [(2, ⟨true, 5, "a"⟩)]).1 (by decide)

end CBWS
